import Mathlib

/-!
Verification of the HTTP component of a home-automation hub
(homeassistant/components/http/__init__.py): the request dispatcher
produced by request_handler_factory, the JSON response helper of
HomeAssistantView, the server start sequence of HomeAssistantHTTP, and
the ban tracker wired in by setup_bans.
-/

namespace HomeAssistantHttp

/-- Sentinel value of the login-attempts threshold meaning "unlimited"
(NO_LOGIN_ATTEMPT_THRESHOLD = -1 in the source). -/
def NO_LOGIN_ATTEMPT_THRESHOLD : Int := -1

/-- The standard JSON content type (CONTENT_TYPE_JSON from
homeassistant.const, which is outside the sources at hand).
Modelled from the spec: the spec calls it "the standard JSON content
type". -/
def CONTENT_TYPE_JSON : String := "application/json"

/-- UTF-8 encoding of a single Unicode code point, as a list of byte
values.  Models Python str.encode of one character. -/
def utf8Char (c : Char) : List Nat :=
  let n := c.toNat
  if n < 0x80 then [n]
  else if n < 0x800 then
    [0xC0 ||| (n >>> 6), 0x80 ||| (n &&& 0x3F)]
  else if n < 0x10000 then
    [0xE0 ||| (n >>> 12), 0x80 ||| ((n >>> 6) &&& 0x3F), 0x80 ||| (n &&& 0x3F)]
  else
    [0xF0 ||| (n >>> 18), 0x80 ||| ((n >>> 12) &&& 0x3F),
     0x80 ||| ((n >>> 6) &&& 0x3F), 0x80 ||| (n &&& 0x3F)]

/-- UTF-8 encoding of a string as a list of byte values.  Models the
Python expression s.encode of the source (utf-8 codec). -/
def utf8Encode (s : String) : List Nat :=
  s.data.flatMap utf8Char

/-- An aiohttp web.Response, reduced to the fields the source reads or
writes: status code, body bytes, content type and whether compression
was enabled on it. -/
structure Response where
  status : Nat
  body : List Nat
  content_type : Option String
  compression : Bool
deriving DecidableEq, Repr

/-- The aiohttp web.Response constructor as used at the end of handle:
web.Response with a body and a status, nothing else set. -/
def webResponse (body : List Nat) (status : Nat) : Response :=
  { status := status, body := body, content_type := none, compression := false }

/-- The fixed web.Response with only a 503 status returned by handle when
the hass instance is not running. -/
def response503 : Response := webResponse [] 503

/-- A Python value a view handler may return, as discriminated by the
isinstance checks in handle: a ready StreamResponse, a str, a bytes, the
value None, a pair of a value and a status code, or anything else. -/
inductive PyVal where
  | streamResponse (r : Response)
  | str (s : String)
  | bytes (b : List Nat)
  | none
  | tuple (fst : PyVal) (snd : Nat)
  | other (tag : String)
deriving DecidableEq, Repr

/-- Outcome of one call of handle: a returned web.Response, a raised
HTTPUnauthorized, or a failed assert (AssertionError). -/
inductive HandleOutcome where
  | response (r : Response)
  | unauthorized
  | assertionError
deriving DecidableEq, Repr

/-- A registered view, reduced to the flag handle reads
(HomeAssistantView.requires_auth; its source default is true). -/
structure View where
  requires_auth : Bool
deriving DecidableEq, Repr

/-- An incoming request as seen by handle: the optional KEY_AUTHENTICATED
entry set (or not) by the auth middleware, the resolved real IP, the
path, and the match_info path parameters. -/
structure Request where
  authenticated : Option Bool
  real_ip : Option String
  path : String
  match_info : List (String × String)
deriving DecidableEq, Repr

/-- The handle coroutine produced by request_handler_factory, translated
clause by clause from the source: 503 when hass is not running, a raised
HTTPUnauthorized when the view requires auth and the request is not
authenticated, pass-through of a StreamResponse result, unpacking of a
(result, status_code) tuple, utf-8 encoding of a str body, empty body for
None, bytes kept as is, and a failed assert for anything else. -/
def handle (hassRunning : Bool) (view : View)
    (handler : Request → List (String × String) → PyVal)
    (req : Request) : HandleOutcome :=
  if !hassRunning then
    .response (webResponse [] 503)
  else
    let authenticated := req.authenticated.getD false
    if view.requires_auth && !authenticated then
      .unauthorized
    else
      let result := handler req req.match_info
      match result with
      | .streamResponse r => .response r
      | result =>
        let status_code := 200
        let (result, status_code) :=
          match result with
          | .tuple b s => (b, s)
          | r => (r, status_code)
        match result with
        | .str s => .response (webResponse (utf8Encode s) status_code)
        | .none => .response (webResponse [] status_code)
        | .bytes b => .response (webResponse b status_code)
        | _ => .assertionError

/-- A bare handler result the coercion at the end of handle accepts:
None, a str or a bytes. -/
def bareConforming : PyVal → Bool
  | .str _ => true
  | .bytes _ => true
  | .none => true
  | _ => false

/-- A handler result that never reaches the failed assert: a ready
StreamResponse, or a bare or tuple-wrapped None, str or bytes. -/
def conforming : PyVal → Bool
  | .streamResponse _ => true
  | .tuple b _ => bareConforming b
  | v => bareConforming v

/-- The body coercion applied by handle to a bare conforming result: a
str becomes its utf-8 bytes, None becomes the empty body, bytes are kept
as they are. -/
def coerceBody : PyVal → List Nat
  | .str s => utf8Encode s
  | .bytes b => b
  | _ => []

/-- C2: when the hass instance is not running, handle returns the fixed
503 response, for every view, every handler and every request — in
particular before the authentication check is consulted and without the
handler ever being invoked. -/
theorem handle_not_running_503 (view : View)
    (handler : Request → List (String × String) → PyVal) (req : Request) :
    handle false view handler req = .response response503 := by
  rfl

/-- C3: when the hass instance is running, the view requires auth and the
request is not authenticated, handle raises HTTPUnauthorized, for every
handler — so the bound handler is never invoked. -/
theorem handle_unauthenticated_401 (view : View)
    (handler : Request → List (String × String) → PyVal) (req : Request)
    (hra : view.requires_auth = true)
    (hauth : req.authenticated.getD false = false) :
    handle true view handler req = .unauthorized := by
  simp [handle, hra, hauth]

/-- Witness for C3 at a concrete unauthenticated request on an
auth-requiring view. -/
theorem handle_unauthenticated_401_witness :
    (View.mk true).requires_auth = true ∧
    (Request.mk (some false) Option.none "/api/" []).authenticated.getD false = false ∧
    handle true (View.mk true) (fun _ _ => PyVal.none)
      (Request.mk (some false) Option.none "/api/" []) = .unauthorized :=
  ⟨rfl, rfl, handle_unauthenticated_401 _ _ _ rfl rfl⟩

/-- C10: when the KEY_AUTHENTICATED entry is absent from the request,
handle treats the request as unauthenticated (request.get defaults to
False) and raises HTTPUnauthorized on an auth-requiring view, for every
handler. -/
theorem handle_missing_marker_401 (view : View)
    (handler : Request → List (String × String) → PyVal) (req : Request)
    (hra : view.requires_auth = true)
    (hnone : req.authenticated = Option.none) :
    handle true view handler req = .unauthorized := by
  simp [handle, hra, hnone]

/-- Witness for C10 at a concrete request carrying no KEY_AUTHENTICATED
entry at all. -/
theorem handle_missing_marker_401_witness :
    (View.mk true).requires_auth = true ∧
    (Request.mk Option.none Option.none "/api/" []).authenticated = Option.none ∧
    handle true (View.mk true) (fun _ _ => PyVal.bytes [1])
      (Request.mk Option.none Option.none "/api/" []) = .unauthorized :=
  ⟨rfl, rfl, handle_missing_marker_401 _ _ _ rfl rfl⟩

/-- C4: a handler returning a bare str yields a response whose body is
exactly that string utf-8 encoded and whose status is 200. -/
theorem handle_str_result (view : View)
    (handler : Request → List (String × String) → PyVal) (req : Request)
    (s : String)
    (hok : (view.requires_auth && !(req.authenticated.getD false)) = false)
    (hres : handler req req.match_info = .str s) :
    handle true view handler req =
      .response ⟨200, utf8Encode s, Option.none, false⟩ := by
  simp [handle, hok, hres, webResponse]

/-- Witness for C4 at a concrete handler returning the string ok. -/
theorem handle_str_result_witness :
    ((View.mk false).requires_auth &&
      !((Request.mk Option.none Option.none "/" []).authenticated.getD false)) = false ∧
    handle true (View.mk false) (fun _ _ => PyVal.str "ok")
      (Request.mk Option.none Option.none "/" []) =
      .response ⟨200, utf8Encode "ok", Option.none, false⟩ :=
  ⟨rfl, handle_str_result _ _ _ "ok" rfl rfl⟩

/-- C5: a handler returning a (body, status) tuple with a conforming body
yields a response with exactly that status, the body coerced by the same
rules as a bare body. -/
theorem handle_tuple_result (view : View)
    (handler : Request → List (String × String) → PyVal) (req : Request)
    (b : PyVal) (code : Nat)
    (hok : (view.requires_auth && !(req.authenticated.getD false)) = false)
    (hres : handler req req.match_info = .tuple b code)
    (hb : bareConforming b = true) :
    handle true view handler req =
      .response ⟨code, coerceBody b, Option.none, false⟩ := by
  cases b <;> simp_all [handle, coerceBody, bareConforming, webResponse]

/-- Witness for C5 at a concrete handler returning (None, 201). -/
theorem handle_tuple_result_witness :
    ((View.mk false).requires_auth &&
      !((Request.mk Option.none Option.none "/" []).authenticated.getD false)) = false ∧
    bareConforming PyVal.none = true ∧
    handle true (View.mk false) (fun _ _ => PyVal.tuple PyVal.none 201)
      (Request.mk Option.none Option.none "/" []) =
      .response ⟨201, coerceBody PyVal.none, Option.none, false⟩ :=
  ⟨rfl, rfl, handle_tuple_result _ _ _ PyVal.none 201 rfl rfl rfl⟩

/-- C6: a handler returning a ready StreamResponse has it passed through
unchanged, with no body or status coercion. -/
theorem handle_stream_passthrough (view : View)
    (handler : Request → List (String × String) → PyVal) (req : Request)
    (r : Response)
    (hok : (view.requires_auth && !(req.authenticated.getD false)) = false)
    (hres : handler req req.match_info = .streamResponse r) :
    handle true view handler req = .response r := by
  simp [handle, hok, hres]

/-- Witness for C6 at a concrete handler returning a ready 418 response
with a nonempty body and compression enabled; it comes back identical. -/
theorem handle_stream_passthrough_witness :
    ((View.mk false).requires_auth &&
      !((Request.mk Option.none Option.none "/" []).authenticated.getD false)) = false ∧
    handle true (View.mk false)
      (fun _ _ => PyVal.streamResponse ⟨418, [7], some "text/plain", true⟩)
      (Request.mk Option.none Option.none "/" []) =
      .response ⟨418, [7], some "text/plain", true⟩ :=
  ⟨rfl, handle_stream_passthrough _ _ _ ⟨418, [7], some "text/plain", true⟩ rfl rfl⟩

/-- C7: once the handler runs, its result reaches the failed assert
exactly when it is non-conforming: not a StreamResponse and not a bare
or tuple-wrapped None, str or bytes.  In particular a conforming result
never hits the assert, and a non-conforming one produces no HTTP
response. -/
theorem handle_assert_iff_nonconforming (view : View)
    (handler : Request → List (String × String) → PyVal) (req : Request)
    (hok : (view.requires_auth && !(req.authenticated.getD false)) = false) :
    conforming (handler req req.match_info) = false ↔
      handle true view handler req = .assertionError := by
  generalize hres : handler req req.match_info = v
  cases v
  case tuple b code =>
    cases b <;> simp [handle, hok, hres, conforming, bareConforming]
  all_goals simp [handle, hok, hres, conforming, bareConforming]

/-- Witness for C7 at a concrete handler returning a dict-like object:
it is non-conforming and handle ends in the failed assert. -/
theorem handle_assert_iff_nonconforming_witness :
    ((View.mk false).requires_auth &&
      !((Request.mk Option.none Option.none "/" []).authenticated.getD false)) = false ∧
    conforming (PyVal.other "dict") = false ∧
    handle true (View.mk false) (fun _ _ => PyVal.other "dict")
      (Request.mk Option.none Option.none "/" []) = .assertionError :=
  ⟨rfl, rfl,
    (handle_assert_iff_nonconforming (View.mk false) (fun _ _ => PyVal.other "dict")
      (Request.mk Option.none Option.none "/" []) rfl).mp rfl⟩

/-- State of a HomeAssistantHTTP instance as touched by start: whether an
SSL certificate is configured, whether self dot _handler has been set,
whether self dot server has been set, the app frozen flag, whether the
middleware tuple has been prepared, and whether app startup has run. -/
structure ServerState where
  ssl_certificate : Option String
  handlerInstalled : Bool
  serverCreated : Bool
  frozen : Bool
  middlewaresPrepared : Bool
  startupRun : Bool
deriving DecidableEq, Repr

/-- The two errors start can log: a failed SSL certificate read and a
failed create_server (OSError on bind). -/
inductive LogEvent where
  | sslCertError
  | bindError
deriving DecidableEq, Repr

/-- The start coroutine of HomeAssistantHTTP, translated statement by
statement: run app startup; when a certificate is configured and loading
it fails, log and return early; otherwise freeze the app, install the
handler, and try create_server.  An OSError from create_server is caught
and logged but NOT followed by a return, so the two trailing statements
(preparing the middleware tuple and unfreezing the app) run in the
failure case too, and the handler installed before the try stays set. -/
def start (s : ServerState) (sslLoadOk : Bool) (bindOk : Bool) :
    ServerState × List LogEvent :=
  let s := { s with startupRun := true }
  if s.ssl_certificate.isSome && !sslLoadOk then
    (s, [.sslCertError])
  else
    let s := { s with frozen := true }
    let s := { s with handlerInstalled := true }
    if bindOk then
      let s := { s with serverCreated := true }
      ({ s with middlewaresPrepared := true, frozen := false }, [])
    else
      ({ s with middlewaresPrepared := true, frozen := false }, [.bindError])

/-- Counterexample to C8 as stated: starting a fresh plain-HTTP server
whose socket bind fails leaves the request handler installed and still
runs the remaining startup steps (middleware preparation), while logging
the bind error. -/
theorem start_bind_failure_counterexample :
    (start ⟨Option.none, false, false, false, false, false⟩ true false).1.handlerInstalled
        = true ∧
    (start ⟨Option.none, false, false, false, false, false⟩ true false).1.middlewaresPrepared
        = true ∧
    (start ⟨Option.none, false, false, false, false, false⟩ true false).2
        = [LogEvent.bindError] := by
  decide

/-- C8 amended: when create_server fails, the error is logged and no
server object is stored, but the handler installed before the bind
attempt remains installed and the remaining startup steps (middleware
preparation and unfreezing) still run. -/
theorem start_bind_failure (s : ServerState) (sslLoadOk : Bool)
    (hssl : (s.ssl_certificate.isSome && !sslLoadOk) = false)
    (hsrv : s.serverCreated = false) :
    (start s sslLoadOk false).2 = [LogEvent.bindError] ∧
    (start s sslLoadOk false).1.serverCreated = false ∧
    (start s sslLoadOk false).1.handlerInstalled = true ∧
    (start s sslLoadOk false).1.middlewaresPrepared = true ∧
    (start s sslLoadOk false).1.frozen = false := by
  simp [start, hssl, hsrv]

/-- Witness for the amended C8 at a fresh plain-HTTP server state. -/
theorem start_bind_failure_witness :
    ((⟨Option.none, false, false, false, false, false⟩ : ServerState).ssl_certificate.isSome
        && !true) = false ∧
    (⟨Option.none, false, false, false, false, false⟩ : ServerState).serverCreated = false ∧
    (start ⟨Option.none, false, false, false, false, false⟩ true false).2
        = [LogEvent.bindError] ∧
    (start ⟨Option.none, false, false, false, false, false⟩ true false).1.serverCreated
        = false :=
  ⟨rfl, rfl,
    (start_bind_failure ⟨Option.none, false, false, false, false, false⟩ true rfl rfl).1,
    (start_bind_failure ⟨Option.none, false, false, false, false, false⟩ true rfl rfl).2.1⟩

/-- A JSON-serializable Python value passed to the json helper. -/
inductive JValue where
  | null
  | bool (b : Bool)
  | num (n : Int)
  | str (s : String)
  | arr (xs : List JValue)
  | obj (kvs : List (String × JValue))

/-- Escaping of one character inside a JSON string literal (the common
cases of the json module's encoder: quote, backslash and the usual
control characters). -/
def jsonEscapeChar (c : Char) : String :=
  if c = '"' then "\\\""
  else if c = '\\' then "\\\\"
  else if c = '\n' then "\\n"
  else if c = '\t' then "\\t"
  else if c = '\r' then "\\r"
  else String.singleton c

/-- A JSON string literal: the escaped characters between two quotes. -/
def jsonQuote (s : String) : String :=
  "\"" ++ String.join (s.data.map jsonEscapeChar) ++ "\""

/-- Order on rendered object entries by their key, the order sort_keys
sorts by (lexicographic on code points, as in Python). -/
def keyLe (a b : String × String) : Prop := a.1 ≤ b.1

instance : DecidableRel keyLe :=
  fun a b => inferInstanceAs (Decidable (a.1 ≤ b.1))

instance : IsTotal (String × String) keyLe :=
  ⟨fun a b => le_total a.1 b.1⟩

instance : IsTrans (String × String) keyLe :=
  ⟨fun _ _ _ h h2 => le_trans h h2⟩

/-- Sorting of rendered object entries by key, modelling sort_keys=True
of json.dumps. -/
def sortEntries (l : List (String × String)) : List (String × String) :=
  List.insertionSort keyLe l

/-- Concatenation of rendered object entries with the default separators
of json.dumps. -/
def joinEntries : List (String × String) → String
  | [] => ""
  | [(k, v)] => jsonQuote k ++ ": " ++ v
  | (k, v) :: rest => jsonQuote k ++ ": " ++ v ++ ", " ++ joinEntries rest

mutual

/-- The serialization json.dumps with sort_keys=True and default
separators, modelled from the json module: every object's entries are
rendered and then emitted in key-sorted order. -/
def dumps : JValue → String
  | .null => "null"
  | .bool true => "true"
  | .bool false => "false"
  | .num n => toString n
  | .str s => jsonQuote s
  | .arr xs => "[" ++ dumpsList xs ++ "]"
  | .obj kvs => "\x7b" ++ joinEntries (sortEntries (renderEntries kvs)) ++ "\x7d"

/-- Serialization of the elements of a JSON array, comma separated. -/
def dumpsList : List JValue → String
  | [] => ""
  | [x] => dumps x
  | x :: y :: xs => dumps x ++ ", " ++ dumpsList (y :: xs)

/-- Rendering of an object's entries: each value serialized, keys kept
for the sort. -/
def renderEntries : List (String × JValue) → List (String × String)
  | [] => []
  | (k, v) :: xs => (k, dumps v) :: renderEntries xs

end

/-- The json helper of HomeAssistantView: the result serialized with
sorted keys and utf-8 encoded as the body, the JSON content type, the
given status code (defaulting to 200), and compression enabled on the
response. -/
def HomeAssistantView.json (result : JValue) (status_code : Nat := 200) : Response :=
  let msg := utf8Encode (dumps result)
  { body := msg, content_type := some CONTENT_TYPE_JSON,
    status := status_code, compression := true }

/-- C9: the json helper produces the value serialized with object keys
sorted, utf-8 encoded, under the standard JSON content type, with
compression enabled; the status code defaults to 200 and a caller
supplied one is used verbatim. -/
theorem json_helper_spec (result : JValue) (status_code : Nat) :
    (HomeAssistantView.json result status_code).body = utf8Encode (dumps result) ∧
    (HomeAssistantView.json result status_code).content_type = some CONTENT_TYPE_JSON ∧
    (HomeAssistantView.json result status_code).compression = true ∧
    (HomeAssistantView.json result status_code).status = status_code ∧
    (HomeAssistantView.json result).status = 200 ∧
    ∀ kvs : List (String × JValue),
      List.Sorted keyLe (sortEntries (renderEntries kvs)) :=
  ⟨rfl, rfl, rfl, rfl, rfl, fun _ => List.sorted_insertionSort keyLe _⟩

/-- Modelled from the spec: the ban tracker configuration wired in by
setup_bans (whose module is not among the sources at hand): whether ban
tracking is enabled and the login-attempts threshold, with the sentinel
NO_LOGIN_ATTEMPT_THRESHOLD meaning unlimited. -/
structure BanConfig where
  enabled : Bool
  login_threshold : Int
deriving DecidableEq, Repr

/-- Modelled from the spec: the ban tracker state, a failed-attempt count
per source address. -/
abbrev BanState := String → Nat

/-- Modelled from the spec: the authenticator configuration, an optional
shared-secret password and the membership test of the trusted networks. -/
structure AuthConfig where
  api_password : Option String
  trusted_networks : String → Bool

/-- Modelled from the spec: an address is banned when ban tracking is
enabled, the threshold is not the unlimited sentinel, and the address's
failed-attempt count has reached the threshold. -/
def isBanned (cfg : BanConfig) (st : BanState) (addr : String) : Bool :=
  cfg.enabled && (cfg.login_threshold != NO_LOGIN_ATTEMPT_THRESHOLD)
    && decide (cfg.login_threshold ≤ (st addr : Int))

/-- Modelled from the spec: a request is authenticated when its source
address is inside a trusted network, or no password is configured, or the
presented credential equals the configured password. -/
def credentialOk (auth : AuthConfig) (addr : String) (presented : Option String) : Bool :=
  auth.trusted_networks addr ||
    match auth.api_password with
    | Option.none => true
    | some pw => presented == some pw

/-- Modelled from the spec: the outcome of one request through the
ban-then-authenticate pipeline. -/
inductive BanOutcome where
  | rejectedBanned
  | accepted
  | rejectedUnauthenticated
deriving DecidableEq, Repr

/-- Modelled from the spec: processing of one request.  A banned address
is rejected before the credential is examined; otherwise a valid
credential is accepted; otherwise the request is rejected and, when ban
tracking is enabled, the address's failed-attempt count is incremented
(counting happens even under the unlimited threshold). -/
def processRequest (cfg : BanConfig) (auth : AuthConfig) (st : BanState)
    (addr : String) (cred : Option String) : BanOutcome × BanState :=
  if isBanned cfg st addr then (.rejectedBanned, st)
  else if credentialOk auth addr cred then (.accepted, st)
  else (.rejectedUnauthenticated,
    if cfg.enabled then (fun a => if a = addr then st a + 1 else st a) else st)

/-- Modelled from the spec: processing of a sequence of requests, each a
source address with a presented credential, threading the ban state. -/
def runTrace (cfg : BanConfig) (auth : AuthConfig) :
    BanState → List (String × Option String) → List BanOutcome
  | _, [] => []
  | st, (addr, cred) :: rest =>
      (processRequest cfg auth st addr cred).1 ::
        runTrace cfg auth (processRequest cfg auth st addr cred).2 rest

/-- Processing a request never decreases any address's failed-attempt
count. -/
theorem processRequest_count_le (cfg : BanConfig) (auth : AuthConfig)
    (st : BanState) (addr : String) (cred : Option String) (a : String) :
    st a ≤ (processRequest cfg auth st addr cred).2 a := by
  unfold processRequest
  split_ifs with h1 h2 h3
  · exact le_refl _
  · exact le_refl _
  · by_cases h : a = addr <;> simp [h, Nat.le_succ]
  · exact le_refl _

/-- Bannedness is monotone in the address's failed-attempt count. -/
theorem isBanned_mono (cfg : BanConfig) (st st2 : BanState) (addr : String)
    (hle : st addr ≤ st2 addr) (hb : isBanned cfg st addr = true) :
    isBanned cfg st2 addr = true := by
  unfold isBanned at hb ⊢
  simp only [Bool.and_eq_true, decide_eq_true_eq] at hb ⊢
  exact ⟨hb.1, le_trans hb.2 (by exact_mod_cast hle)⟩

/-- From a state where an address is banned, every request of a trace
coming from that address is rejected as banned, whatever its credential. -/
theorem runTrace_banned_all (cfg : BanConfig) (auth : AuthConfig) (addr : String) :
    ∀ (trace : List (String × Option String)) (st : BanState),
      isBanned cfg st addr = true →
      ∀ p ∈ trace.zip (runTrace cfg auth st trace),
        p.1.1 = addr → p.2 = BanOutcome.rejectedBanned := by
  intro trace
  induction trace with
  | nil => intro st _ p hp; simp [runTrace] at hp
  | cons hd rest ih =>
    intro st hb p hp ha
    obtain ⟨a, c⟩ := hd
    simp only [runTrace, List.zip_cons_cons, List.mem_cons] at hp
    rcases hp with rfl | hp
    · simp only at ha
      subst ha
      simp [processRequest, hb]
    · exact ih (processRequest cfg auth st a c).2
        (isBanned_mono cfg st _ addr (processRequest_count_le cfg auth st a c addr) hb)
        p hp ha

/-- C1: once an address's failed-attempt count has reached a configured
(non-unlimited) threshold with ban tracking enabled, every subsequent
request from that address is rejected before the credential check,
whatever credential it presents — a ban is never lifted by later valid
credentials. -/
theorem ban_never_lifted (cfg : BanConfig) (auth : AuthConfig) (st : BanState)
    (addr : String) (trace : List (String × Option String))
    (hen : cfg.enabled = true) (hth : 0 ≤ cfg.login_threshold)
    (hcount : cfg.login_threshold ≤ (st addr : Int)) :
    ∀ p ∈ trace.zip (runTrace cfg auth st trace),
      p.1.1 = addr → p.2 = BanOutcome.rejectedBanned := by
  apply runTrace_banned_all
  unfold isBanned
  simp only [Bool.and_eq_true, decide_eq_true_eq, bne_iff_ne]
  refine ⟨⟨hen, ?_⟩, hcount⟩
  unfold NO_LOGIN_ATTEMPT_THRESHOLD
  omega

/-- Witness for C1: with threshold 1, an address already at one failed
attempt is rejected even when it then presents the correct password. -/
theorem ban_never_lifted_witness :
    (⟨true, 1⟩ : BanConfig).enabled = true ∧
    (0 : Int) ≤ (⟨true, 1⟩ : BanConfig).login_threshold ∧
    (⟨true, 1⟩ : BanConfig).login_threshold ≤ (((fun _ => 1) : BanState) "10.0.0.1" : Int) ∧
    ∀ p ∈ ([("10.0.0.1", some "hunter2")].zip
        (runTrace ⟨true, 1⟩ ⟨some "hunter2", fun _ => false⟩ (fun _ => 1)
          [("10.0.0.1", some "hunter2")])),
      p.1.1 = "10.0.0.1" → p.2 = BanOutcome.rejectedBanned :=
  ⟨rfl, by decide, by decide,
    ban_never_lifted ⟨true, 1⟩ ⟨some "hunter2", fun _ => false⟩ (fun _ => 1)
      "10.0.0.1" [("10.0.0.1", some "hunter2")] rfl (by decide) (by decide)⟩

end HomeAssistantHttp
